import Mathlib

/-
Verification of the BountyX AI helper's classification, aggregation and
remediation-lookup engine (src/ai_helper.py, class BountyXAI).

Python strings are modelled as `List Char`; Python dicts with optional keys
are modelled as structures with `Option` fields, where `d.get(k, default)`
becomes `Option.getD`.  Python's `x in s` substring test is `hasSub`, and
`str.lower()` is `lowerStr` (the strings involved are ASCII, where Python's
`lower` agrees with `Char.toLower`).  All definitions are executable.
-/

/-- View of a Lean string literal as the list of its characters. -/
def str (s : String) : List Char := s.data

/-- Python `s.lower()` on ASCII text (maps each character to lower case). -/
def lowerStr (s : List Char) : List Char := s.map Char.toLower

/-- Boolean prefix test on character lists. -/
def listPrefixOf : List Char → List Char → Bool
  | [], _ => true
  | _ :: _, [] => false
  | a :: as, b :: bs => a == b && listPrefixOf as bs

/-- Python substring test `needle in hay` (true for the empty needle). -/
def hasSub (needle : List Char) : List Char → Bool
  | [] => needle.isEmpty
  | c :: rest => listPrefixOf needle (c :: rest) || hasSub needle rest

/-- Word character for the regex `\b` word boundary: the ASCII fragment of
Python's `\w` class (letters, digits, underscore); all texts matched in the
source are ASCII. -/
def isWordChar (c : Char) : Bool := c.isAlphanum || c == '_'

/-- A `\b` boundary holds next to a string edge or next to a non-word
character (the patterns searched consist solely of word characters). -/
def boundaryAt : Option Char → Bool
  | none => true
  | some c => !isWordChar c

/-- The pattern `\b w \b` matches at the current position, given the
character just before that position (`none` at the start of the string). -/
def wbMatchAt (w s : List Char) (prev : Option Char) : Bool :=
  boundaryAt prev && listPrefixOf w s && boundaryAt ((s.drop w.length).head?)

/-- Scan of `re.search` for the pattern `\b w \b`: try every position,
tracking the character preceding the current suffix. -/
def wbSearchAux (w : List Char) : Option Char → List Char → Bool
  | prev, [] => wbMatchAt w [] prev
  | prev, c :: rest => wbMatchAt w (c :: rest) prev || wbSearchAux w (some c) rest

/-- Python `re.search(r'\b' + re.escape(w) + r'\b', s) is not None` for a
pattern `w` made of word characters (as every catalog key's first word is;
`re.escape` is then the identity). -/
def wbSearch (w s : List Char) : Bool := wbSearchAux w none s

/-- Python `s.split()[0]`: first whitespace-delimited word (the catalog keys
this is applied to are non-empty, so the index never fails). -/
def firstWord (s : List Char) : List Char :=
  (s.dropWhile Char.isWhitespace).takeWhile (fun c => !c.isWhitespace)

/-- Python `str(n)` for a natural number. -/
def natStr (n : Nat) : List Char := (toString n).data

/-- Identity of a remediation template of `remediation_db` in
`_get_recommendation_for_vulnerability_type` (lines 1034-1671).  In the
source each template is a static dict of prose (`summary`, `steps`,
`code_example`, `references`); no verified property depends on that text,
only on which template a lookup returns, so templates are represented by
identity while the key list, its order, and the matching logic are
reproduced exactly.  `generic` is the fixed default template returned when
both lookup passes fail. -/
inductive RemTemplate where
  | sqlInjection
  | xss
  | openRedirect
  | csrf
  | ssrf
  | lfi
  | rfi
  | cve
  | outdated
  | missingHeader
  | informationDisclosure
  | directoryListing
  | defaultCredentials
  | sensitiveFile
  | sslTls
  | cors
  | generic
deriving DecidableEq

/-- The `remediation_db` mapping of `_get_recommendation_for_vulnerability_type`,
as the ordered association list of its keys (Python dicts preserve insertion
order, and the source iterates `remediation_db.items()` in that order). -/
def remediationDb : List (List Char × RemTemplate) :=
  [ (str "sql injection", RemTemplate.sqlInjection)
  , (str "xss", RemTemplate.xss)
  , (str "open redirect", RemTemplate.openRedirect)
  , (str "csrf", RemTemplate.csrf)
  , (str "ssrf", RemTemplate.ssrf)
  , (str "lfi", RemTemplate.lfi)
  , (str "rfi", RemTemplate.rfi)
  , (str "cve", RemTemplate.cve)
  , (str "outdated", RemTemplate.outdated)
  , (str "missing header", RemTemplate.missingHeader)
  , (str "information disclosure", RemTemplate.informationDisclosure)
  , (str "directory listing", RemTemplate.directoryListing)
  , (str "default credentials", RemTemplate.defaultCredentials)
  , (str "sensitive file", RemTemplate.sensitiveFile)
  , (str "ssl tls", RemTemplate.sslTls)
  , (str "cors", RemTemplate.cors) ]

/-- First lookup pass (lines 1639-1641): first catalog entry whose key is a
substring of the (already lowercased) vulnerability name or matcher name. -/
def substringPass (n m : List Char) : Option (List Char × RemTemplate) :=
  remediationDb.find? (fun kv => hasSub kv.1 n || hasSub kv.1 m)

/-- Second lookup pass (lines 1644-1647): first catalog entry whose key's
first word matches either lowercased input as a regex word-boundary search. -/
def wordBoundaryPass (n m : List Char) : Option (List Char × RemTemplate) :=
  remediationDb.find? (fun kv => wbSearch (firstWord kv.1) n || wbSearch (firstWord kv.1) m)

/-- `_get_recommendation_for_vulnerability_type(vuln_name, matcher_name)`
(lines 1027-1671): lowercase both inputs, try the exact substring pass, then
the word-boundary fallback pass, and default to the generic template. -/
def getRecommendationForVulnerabilityType (vulnName matcherName : List Char) : RemTemplate :=
  match substringPass (lowerStr vulnName) (lowerStr matcherName) with
  | some kv => kv.2
  | none =>
    match wordBoundaryPass (lowerStr vulnName) (lowerStr matcherName) with
    | some kv => kv.2
    | none => RemTemplate.generic

/-- The `info` sub-dict of a nuclei scanner result (`result['info']`), with
its optionally present fields. -/
structure NucleiInfo where
  name : Option (List Char)
  severity : Option (List Char)
  description : Option (List Char)
deriving DecidableEq

/-- One entry of a scanner-format bundle's `results` list. -/
structure NucleiResult where
  info : Option NucleiInfo
  host : Option (List Char)
  matcherName : Option (List Char)
deriving DecidableEq

/-- One entry of a manual-check bundle's `manual_checks` list. -/
structure ManualCheck where
  title : Option (List Char)
  content : Option (List Char)
deriving DecidableEq

/-- A raw vulnerability bundle as `_analyze_vulnerabilities` inspects it:
`results = some _` models a dict containing the key `results` (scanner
format), `manualChecks = some _` the key `manual_checks` (manual format);
both `none` is an unrecognized shape. -/
structure RawBundle where
  results : Option (List NucleiResult)
  manualChecks : Option (List ManualCheck)
deriving DecidableEq

/-- Python `result.get('info', {}).get(field, default)` for a nuclei result. -/
def infoGet (r : NucleiResult) (f : NucleiInfo → Option (List Char)) (d : List Char) : List Char :=
  match r.info with
  | some i => (f i).getD d
  | none => d

/-- A normalized Finding dict as built by `_analyze_vulnerabilities`
(lines 959-968 and 981-986).  The scanner branch sets a `url` key, the
manual branch does not, hence `url : Option`. -/
structure Finding where
  title : List Char
  severity : List Char
  description : List Char
  url : Option (List Char)
  recommendation : RemTemplate
deriving DecidableEq

/-- The finding dict built for one scanner result (lines 959-968).  Note the
lookup receives `info.name` defaulted to the empty string, while the stored
title defaults to "Unknown Vulnerability". -/
def mkScannerFinding (r : NucleiResult) : Finding :=
  { title := infoGet r NucleiInfo.name (str "Unknown Vulnerability")
  , severity := infoGet r NucleiInfo.severity (str "info")
  , description := infoGet r NucleiInfo.description []
  , url := some (r.host.getD [])
  , recommendation :=
      getRecommendationForVulnerabilityType (infoGet r NucleiInfo.name []) (r.matcherName.getD []) }

/-- The finding dict built for one manual check (lines 971-986): severity is
inferred by case-sensitive substring search on the raw title. -/
def mkManualFinding (c : ManualCheck) : Finding :=
  { title := c.title.getD []
  , severity :=
      if hasSub (str "CRITICAL") (c.title.getD []) then str "critical"
      else if hasSub (str "WARNING") (c.title.getD []) then str "medium"
      else str "info"
  , description := c.content.getD []
  , url := none
  , recommendation := getRecommendationForVulnerabilityType (c.title.getD []) [] }

/-- `_analyze_vulnerabilities` (lines 951-988): normalize each bundle by its
shape, appending all findings in input order; unrecognized shapes contribute
nothing. -/
def analyzeVulnerabilities (bundles : List RawBundle) : List Finding :=
  bundles.flatMap fun b =>
    match b.results with
    | some rs => rs.map mkScannerFinding
    | none =>
      match b.manualChecks with
      | some cs => cs.map mkManualFinding
      | none => []

/-- The `vuln_count` severity tally of `analyze_results` (lines 157-163). -/
structure VulnCount where
  critical : Nat
  high : Nat
  medium : Nat
  low : Nat
  info : Nat
deriving DecidableEq

/-- One iteration of the counting loop (lines 165-170): lowercase the
finding's severity and bump its bucket if it is one of the five keys of
`vuln_count` (which include `info`), otherwise bump `info`. -/
def countStep (cnt : VulnCount) (f : Finding) : VulnCount :=
  if lowerStr f.severity = str "critical" then { cnt with critical := cnt.critical + 1 }
  else if lowerStr f.severity = str "high" then { cnt with high := cnt.high + 1 }
  else if lowerStr f.severity = str "medium" then { cnt with medium := cnt.medium + 1 }
  else if lowerStr f.severity = str "low" then { cnt with low := cnt.low + 1 }
  else if lowerStr f.severity = str "info" then { cnt with info := cnt.info + 1 }
  else { cnt with info := cnt.info + 1 }

/-- The vulnerability count of the analysis summary (lines 157-172). -/
def vulnCount (fs : List Finding) : VulnCount :=
  fs.foldl countStep ⟨0, 0, 0, 0, 0⟩

/-- The dict `_get_recommendation_for_vulnerability` receives, restricted to
the keys it reads: `title`, `severity`, `url`, and `details` (of which only
`details['url']` is read; `detailsUrl = some u` models a present `details`
dict carrying a `url` key). -/
structure VulnInput where
  title : Option (List Char)
  severity : Option (List Char)
  url : Option (List Char)
  detailsUrl : Option (List Char)
deriving DecidableEq

/-- The formatted recommendation dict built by
`_get_recommendation_for_vulnerability` (lines 1003-1025).  In the source it
copies `summary`, `steps`, `code_example` and `references` from the base
template and substitutes the affected URL for every occurrence of the step
placeholder; those prose fields are carried here by the `base` template
identity, alongside the two fields the function adds. -/
structure FormattedRec where
  base : RemTemplate
  affectedUrl : Option (List Char)
  timeframe : List Char
deriving DecidableEq

/-- `_get_recommendation_for_vulnerability(vuln)` (lines 990-1025): look up
the catalog with the lowercased title and an empty matcher name, record the
affected URL when non-empty (`details['url']` falling back to `url` falling
back to the empty string), and set the timeframe from the lowercased
severity, which defaults to `'medium'` when the key is absent. -/
def getRecommendationForVulnerability (vuln : VulnInput) : FormattedRec :=
  { base := getRecommendationForVulnerabilityType (lowerStr (vuln.title.getD [])) []
  , affectedUrl :=
      if (vuln.detailsUrl.getD (vuln.url.getD [])).isEmpty then none
      else some (vuln.detailsUrl.getD (vuln.url.getD []))
  , timeframe :=
      if lowerStr (vuln.severity.getD (str "medium")) = str "critical" ∨
         lowerStr (vuln.severity.getD (str "medium")) = str "high" then
        str "Immediate (within 24-48 hours)"
      else if lowerStr (vuln.severity.getD (str "medium")) = str "medium" then
        str "Short-term (within 1-2 weeks)"
      else
        str "Medium-term (within 1 month)" }

/-- View of a Finding dict through the keys `_get_recommendation_for_vulnerability`
reads; findings never carry a `details` key. -/
def toVulnInput (f : Finding) : VulnInput :=
  { title := some f.title, severity := some f.severity, url := f.url, detailsUrl := none }

/-- The `recommendation` value of a recommendation entry: the vulnerability
loop stores the formatted dict from `_get_recommendation_for_vulnerability`,
while the port and directory loops store a plain string. -/
inductive RecContent where
  | formatted (r : FormattedRec)
  | text (s : List Char)
deriving DecidableEq

/-- One entry of a priority bucket of `generate_recommendations`. -/
structure RecEntry where
  title : List Char
  description : List Char
  recommendation : RecContent
deriving DecidableEq

/-- The three priority buckets of `self.recommendations` (lines 181-185). -/
structure Recs where
  high : List RecEntry
  medium : List RecEntry
  low : List RecEntry
deriving DecidableEq

/-- Appending entries to the respective bucket lists. -/
def Recs.append (a b : Recs) : Recs :=
  ⟨a.high ++ b.high, a.medium ++ b.medium, a.low ++ b.low⟩

/-- Contribution of one analyzed vulnerability to the buckets
(lines 189-203): build the entry and place it by lowercased severity. -/
def vulnRecs (f : Finding) : Recs :=
  if lowerStr f.severity = str "critical" ∨ lowerStr f.severity = str "high" then
    ⟨[⟨f.title, f.description, RecContent.formatted (getRecommendationForVulnerability (toVulnInput f))⟩], [], []⟩
  else if lowerStr f.severity = str "medium" then
    ⟨[], [⟨f.title, f.description, RecContent.formatted (getRecommendationForVulnerability (toVulnInput f))⟩], []⟩
  else
    ⟨[], [], [⟨f.title, f.description, RecContent.formatted (getRecommendationForVulnerability (toVulnInput f))⟩]⟩

/-- One flattened open-port record as produced by `_analyze_ports`
(lines 917-930); all fields are present there, with defaults already
applied. -/
structure PortInfo where
  host : List Char
  port : Nat
  service : List Char
  version : List Char
deriving DecidableEq

/-- One port entry of a raw port-scan host. -/
structure RawPort where
  port : Option Nat
  service : Option (List Char)
  version : Option (List Char)
deriving DecidableEq

/-- One host of the raw `scan_results` list. -/
structure RawHost where
  host : Option (List Char)
  ports : List RawPort
deriving DecidableEq

/-- `_analyze_ports` (lines 917-930): flatten all hosts' port lists in
order, applying the documented defaults. -/
def analyzePorts (scanResults : List RawHost) : List PortInfo :=
  scanResults.flatMap fun h =>
    h.ports.map fun p =>
      { host := h.host.getD (str "unknown")
      , port := p.port.getD 0
      , service := p.service.getD (str "unknown")
      , version := p.version.getD (str "unknown") }

/-- Contribution of one open-port record to the buckets (lines 206-225). -/
def portRecs (p : PortInfo) : Recs :=
  if p.port ∈ [22, 23, 3389, 5900] then
    ⟨[], [⟨str "Remote Access Service on Port " ++ natStr p.port,
           str "Found " ++ p.service ++ str " running on port " ++ natStr p.port,
           RecContent.text (str "Restrict access to port " ++ natStr p.port ++
             str " to trusted IPs only and ensure strong authentication is in place.")⟩], []⟩
  else if p.port ∈ [80, 443] then
    ⟨[], [], [⟨str "Web Service on Port " ++ natStr p.port,
               str "Found " ++ p.service ++ str " running on port " ++ natStr p.port,
               RecContent.text (str "Ensure the web server is properly configured with secure headers and up-to-date.")⟩]⟩
  else if p.port ∈ [21, 20] then
    ⟨[], [⟨str "FTP Service on Port " ++ natStr p.port,
           str "Found " ++ p.service ++ str " running on port " ++ natStr p.port,
           RecContent.text (str "Consider replacing FTP with SFTP or FTPS for secure file transfers.")⟩], []⟩
  else ⟨[], [], []⟩

/-- A raw directory record `{url, status}` with optionally present keys. -/
structure DirEntry where
  url : Option (List Char)
  status : Option Nat
deriving DecidableEq

/-- The fixed keyword list of `_find_interesting_directories` (lines 934-939). -/
def interestingDirKeywords : List (List Char) :=
  [ str ".git", str ".env", str "wp-admin", str "admin", str "backup", str "db", str "config"
  , str "dashboard", str "login", str "api", str "test", str "dev", str "staging", str "beta"
  , str "phpinfo", str "phpmyadmin", str "jenkins", str "jira", str "confluence"
  , str "password", str "credentials", str "sql", str "database" ]

/-- The per-directory test of `_find_interesting_directories` (lines 942-947):
some keyword occurs in the lowercased URL (missing URL read as the empty
string); the source's `break` after the first hit makes the loop equivalent
to this disjunction. -/
def dirInteresting (d : DirEntry) : Bool :=
  interestingDirKeywords.any fun k => hasSub k (lowerStr (d.url.getD []))

/-- `_find_interesting_directories` (lines 932-949). -/
def findInterestingDirectories (ds : List DirEntry) : List DirEntry :=
  ds.filter dirInteresting

/-- Contribution of one interesting directory to the buckets (lines 228-241).
The source indexes `dir_info['url']` directly; every directory selected by
`_find_interesting_directories` carries the key (an absent URL reads as the
empty string, which contains no keyword), so the `getD` view is faithful. -/
def dirRecs (d : DirEntry) : Recs :=
  if hasSub (str ".git") (d.url.getD []) || hasSub (str ".env") (d.url.getD []) then
    ⟨[⟨str "Sensitive Information Exposure",
       str "Found " ++ d.url.getD [] ++ str " which may expose sensitive information",
       RecContent.text (str "Remove or restrict access to " ++ d.url.getD [] ++ str " immediately.")⟩], [], []⟩
  else if hasSub (str "wp-admin") (d.url.getD []) || hasSub (str "admin") (d.url.getD []) then
    ⟨[], [⟨str "Admin Interface Exposed",
           str "Found potential admin interface at " ++ d.url.getD [],
           RecContent.text (str "Restrict access to admin interfaces and use strong passwords and 2FA.")⟩], []⟩
  else ⟨[], [], []⟩

/-- The `analysis['details']` keys `generate_recommendations` reads; each is
optionally present, mirroring the `in` checks on lines 188, 206, 228. -/
structure AnalysisDetails where
  vulnerabilities : Option (List Finding)
  openPorts : Option (List PortInfo)
  interestingDirectories : Option (List DirEntry)
deriving DecidableEq

/-- `generate_recommendations` (lines 176-243): starting from empty buckets,
append the contribution of every analyzed vulnerability, then of every open
port, then of every interesting directory, each in input order. -/
def generateRecommendations (d : AnalysisDetails) : Recs :=
  let r1 :=
    match d.vulnerabilities with
    | some vs => vs.foldl (fun r f => r.append (vulnRecs f)) ⟨[], [], []⟩
    | none => ⟨[], [], []⟩
  let r2 :=
    match d.openPorts with
    | some ps => ps.foldl (fun r p => r.append (portRecs p)) r1
    | none => r1
  match d.interestingDirectories with
  | some ds => ds.foldl (fun r dir => r.append (dirRecs dir)) r2
  | none => r2

/-- Mapping a function over both strings preserves the prefix relation. -/
theorem listPrefixOf_map (f : Char → Char) :
    ∀ n h, listPrefixOf n h = true → listPrefixOf (n.map f) (h.map f) = true := by
  intro n
  induction n with
  | nil => intro h _; simp [listPrefixOf]
  | cons a as ih =>
    intro h hp
    cases h with
    | nil => simp [listPrefixOf] at hp
    | cons b bs =>
      simp only [listPrefixOf, Bool.and_eq_true, beq_iff_eq] at hp
      obtain ⟨rfl, hrest⟩ := hp
      simp only [List.map_cons, listPrefixOf, Bool.and_eq_true, beq_iff_eq, true_and]
      exact ih bs hrest

/-- Mapping a function over both strings preserves the substring relation. -/
theorem hasSub_map (f : Char → Char) :
    ∀ n h, hasSub n h = true → hasSub (n.map f) (h.map f) = true := by
  intro n h
  induction h with
  | nil =>
    intro hp
    simp only [hasSub, List.isEmpty_iff] at hp
    subst hp
    simp [hasSub]
  | cons c rest ih =>
    intro hp
    simp only [hasSub, Bool.or_eq_true] at hp
    simp only [List.map_cons, hasSub, Bool.or_eq_true]
    rcases hp with hp | hp
    · exact Or.inl (by simpa using listPrefixOf_map f n (c :: rest) hp)
    · exact Or.inr (ih hp)

/-- First-match behaviour of a linear scan: if the predicate is false on
every element of a prefix and true at the next element, the scan stops
there. -/
theorem find_first {α : Type} (p : α → Bool) :
    ∀ (l₁ : List α) (x : α) (l₂ : List α), (∀ a ∈ l₁, p a = false) → p x = true →
      List.find? p (l₁ ++ x :: l₂) = some x := by
  intro l₁
  induction l₁ with
  | nil => intro x l₂ _ hx; simpa using List.find?_cons_of_pos _ hx
  | cons a as ih =>
    intro x l₂ h hx
    have ha : p a = false := h a (by simp)
    rw [List.cons_append, List.find?_cons_of_neg _ (by simp [ha])]
    exact ih x l₂ (fun b hb => h b (by simp [hb])) hx

/-- C1: the remediation lookup lowercases both inputs and, whenever some
catalog key is a substring of either one, returns the template of the first
such key in the fixed catalog order; inputs matching no key in either pass
fall through to the generic default.  In particular "Reflected XSS on
/search" gets the xss template and "Unknown Weird Bug" the default. -/
theorem C1_lookup_first_substring_match :
    (∀ (vulnName matcherName : List Char) (l₁ : List (List Char × RemTemplate))
        (k : List Char) (t : RemTemplate) (l₂ : List (List Char × RemTemplate)),
        remediationDb = l₁ ++ (k, t) :: l₂ →
        (∀ kv ∈ l₁, hasSub kv.1 (lowerStr vulnName) = false ∧
          hasSub kv.1 (lowerStr matcherName) = false) →
        (hasSub k (lowerStr vulnName) || hasSub k (lowerStr matcherName)) = true →
        getRecommendationForVulnerabilityType vulnName matcherName = t) ∧
    (∀ vulnName matcherName : List Char,
        substringPass (lowerStr vulnName) (lowerStr matcherName) = none →
        wordBoundaryPass (lowerStr vulnName) (lowerStr matcherName) = none →
        getRecommendationForVulnerabilityType vulnName matcherName = RemTemplate.generic) ∧
    getRecommendationForVulnerabilityType (str "Reflected XSS on /search") [] = RemTemplate.xss ∧
    getRecommendationForVulnerabilityType (str "Unknown Weird Bug") [] = RemTemplate.generic := by
  refine ⟨?_, ?_, by decide, by decide⟩
  · intro vn mn l₁ k t l₂ hdb hnone hk
    have hfind : substringPass (lowerStr vn) (lowerStr mn) = some (k, t) := by
      unfold substringPass
      rw [hdb]
      exact find_first _ l₁ (k, t) l₂
        (fun kv hkv => by have h := hnone kv hkv; simp [h.1, h.2]) hk
    simp only [getRecommendationForVulnerabilityType, hfind]
  · intro vn mn h1 h2
    simp only [getRecommendationForVulnerabilityType, h1, h2]

/-- Witness for C1: the first catalog key matches in pass one for a concrete
name, and a concrete name matching neither pass gets the default. -/
theorem C1_lookup_first_substring_match_witness :
    getRecommendationForVulnerabilityType (str "sql injection attempt") [] = RemTemplate.sqlInjection ∧
    getRecommendationForVulnerabilityType (str "Totally Harmless") [] = RemTemplate.generic := by
  constructor
  · exact C1_lookup_first_substring_match.1 (str "sql injection attempt") [] []
      (str "sql injection") RemTemplate.sqlInjection remediationDb.tail
      (by decide) (by intro kv hkv; simp at hkv) (by decide)
  · exact C1_lookup_first_substring_match.2.1 (str "Totally Harmless") [] (by decide) (by decide)

/-- Counterexample to C2: a scanner result carrying severity "weird" is
stored in the analysis details with that raw severity, which lies outside
the closed enum {critical, high, medium, low, info}. -/
theorem C2_severity_enum_counterexample :
    ∃ f ∈ analyzeVulnerabilities
        [⟨some [⟨some ⟨some (str "Test"), some (str "weird"), none⟩, none, none⟩], none⟩],
      f.severity ∉ [str "critical", str "high", str "medium", str "low", str "info"] := by
  decide

/-- C2 amended: every Finding in the analysis details carries a
recommendation produced by the catalog lookup (hence never null), but its
severity is stored raw; severities outside the closed enum are defaulted to
info only by the summary counting step. -/
theorem C2_finding_recommendation_and_count :
    (∀ (bundles : List RawBundle) (f : Finding), f ∈ analyzeVulnerabilities bundles →
        ∃ n m, f.recommendation = getRecommendationForVulnerabilityType n m) ∧
    (∀ (cnt : VulnCount) (f : Finding),
        lowerStr f.severity ∉ [str "critical", str "high", str "medium", str "low", str "info"] →
        countStep cnt f = { cnt with info := cnt.info + 1 }) := by
  constructor
  · intro bundles f hf
    unfold analyzeVulnerabilities at hf
    rw [List.mem_flatMap] at hf
    obtain ⟨⟨res, mc⟩, _, hfb⟩ := hf
    cases res with
    | some rs =>
      simp only [List.mem_map] at hfb
      obtain ⟨r, _, rfl⟩ := hfb
      exact ⟨_, _, rfl⟩
    | none =>
      cases mc with
      | some cs =>
        simp only [List.mem_map] at hfb
        obtain ⟨c, _, rfl⟩ := hfb
        exact ⟨_, _, rfl⟩
      | none => simp at hfb
  · intro cnt f h
    simp only [List.mem_cons, List.not_mem_nil, or_false, not_or] at h
    obtain ⟨h1, h2, h3, h4, h5⟩ := h
    simp [countStep, h1, h2, h3, h4, h5]

/-- Witness for C2's amended statement: a concrete default finding has the
lookup-produced recommendation, and a concrete out-of-enum severity is
counted under info. -/
theorem C2_finding_recommendation_and_count_witness :
    (∃ n m, (mkScannerFinding { info := none, host := none, matcherName := none }).recommendation
        = getRecommendationForVulnerabilityType n m) ∧
    countStep ⟨0, 0, 0, 0, 0⟩
        { title := str "T", severity := str "weird", description := [], url := none,
          recommendation := RemTemplate.generic }
      = ⟨0, 0, 0, 0, 1⟩ := by
  constructor
  · exact C2_finding_recommendation_and_count.1
      [{ results := some [{ info := none, host := none, matcherName := none }], manualChecks := none }]
      (mkScannerFinding { info := none, host := none, matcherName := none })
      (by decide)
  · exact C2_finding_recommendation_and_count.2 ⟨0, 0, 0, 0, 0⟩
      { title := str "T", severity := str "weird", description := [], url := none,
        recommendation := RemTemplate.generic }
      (by decide)

/-- C3: the manual-check normalizer assigns severity by case-sensitive
substring search on the raw title: critical when it contains "CRITICAL",
else medium when it contains "WARNING", else info; the spec's three example
titles behave accordingly. -/
theorem C3_manual_severity_from_raw_title :
    (∀ (cs : List ManualCheck) (f : Finding),
        f ∈ analyzeVulnerabilities [{ results := none, manualChecks := some cs }] →
        f.severity =
          (if hasSub (str "CRITICAL") f.title then str "critical"
           else if hasSub (str "WARNING") f.title then str "medium"
           else str "info")) ∧
    (analyzeVulnerabilities
        [⟨none, some [⟨some (str "WARNING: outdated TLS"), none⟩,
          ⟨some (str "CRITICAL: SQLi in /login"), none⟩,
          ⟨some (str "Informational note"), none⟩]⟩]).map Finding.severity
      = [str "medium", str "critical", str "info"] := by
  constructor
  · intro cs f hf
    simp only [analyzeVulnerabilities, List.flatMap_cons, List.flatMap_nil, List.append_nil,
      List.mem_map] at hf
    obtain ⟨c, _, rfl⟩ := hf
    rfl
  · decide

/-- Witness for C3 at a concrete manual check with a WARNING title. -/
theorem C3_manual_severity_witness :
    (mkManualFinding { title := some (str "WARNING: outdated TLS"), content := none }).severity
      = str "medium" := by
  have h := C3_manual_severity_from_raw_title.1
    [{ title := some (str "WARNING: outdated TLS"), content := none }]
    (mkManualFinding { title := some (str "WARNING: outdated TLS"), content := none })
    (by decide)
  exact h.trans (by decide)

/-- Counterexample to C4: for vuln name "CVE-2023-1234 RCE" the exact
substring first pass does find a match (the key "cve" is a substring of the
lowercased name), contrary to the claim that pass one finds nothing and the
word-boundary fallback decides. -/
theorem C4_first_pass_matches_counterexample :
    substringPass (lowerStr (str "CVE-2023-1234 RCE")) (lowerStr []) ≠ none := by decide

/-- C4 amended: for vuln name "CVE-2023-1234 RCE" (empty matcher name) the
exact substring pass already matches on the key "cve", and the lookup
returns the cve template without reaching the word-boundary fallback. -/
theorem C4_cve_lookup_first_pass :
    substringPass (lowerStr (str "CVE-2023-1234 RCE")) (lowerStr []) = some (str "cve", RemTemplate.cve) ∧
    getRecommendationForVulnerabilityType (str "CVE-2023-1234 RCE") [] = RemTemplate.cve := by
  decide

/-- C5: the per-Finding recommendation engine always attaches a timeframe
determined by the lowercased severity - Immediate for critical or high,
Short-term for medium, Medium-term otherwise - both for pipeline Findings
and for any input dict carrying a severity key. -/
theorem C5_timeframe_from_severity :
    (∀ f : Finding,
        (getRecommendationForVulnerability (toVulnInput f)).timeframe =
          (if lowerStr f.severity = str "critical" ∨ lowerStr f.severity = str "high" then
            str "Immediate (within 24-48 hours)"
           else if lowerStr f.severity = str "medium" then str "Short-term (within 1-2 weeks)"
           else str "Medium-term (within 1 month)")) ∧
    (∀ (v : VulnInput) (s : List Char), v.severity = some s →
        (getRecommendationForVulnerability v).timeframe =
          (if lowerStr s = str "critical" ∨ lowerStr s = str "high" then
            str "Immediate (within 24-48 hours)"
           else if lowerStr s = str "medium" then str "Short-term (within 1-2 weeks)"
           else str "Medium-term (within 1 month)")) := by
  constructor
  · intro f
    rfl
  · intro v s hs
    simp only [getRecommendationForVulnerability, hs, Option.getD_some]

/-- Witness for C5: severity "HIGH" yields the Immediate timeframe. -/
theorem C5_timeframe_from_severity_witness :
    (getRecommendationForVulnerability ⟨some (str "x"), some (str "HIGH"), none, none⟩).timeframe
      = str "Immediate (within 24-48 hours)" := by
  have h := C5_timeframe_from_severity.2 ⟨some (str "x"), some (str "HIGH"), none, none⟩
    (str "HIGH") rfl
  exact h.trans (by decide)

/-- C6: each open-port record lands in exactly one bucket with exactly one
entry - medium "Remote Access Service on Port p" for p in {22,23,3389,5900},
low "Web Service on Port p" for p in {80,443}, medium "FTP Service on Port
p" for p in {20,21} - and end to end, a lone port 22 yields exactly the one
medium entry and a lone port 443 exactly the one low entry. -/
theorem C6_port_bucket_rules :
    (∀ p : PortInfo, p.port ∈ [22, 23, 3389, 5900] →
        portRecs p = ⟨[], [⟨str "Remote Access Service on Port " ++ natStr p.port,
          str "Found " ++ p.service ++ str " running on port " ++ natStr p.port,
          RecContent.text (str "Restrict access to port " ++ natStr p.port ++
            str " to trusted IPs only and ensure strong authentication is in place.")⟩], []⟩) ∧
    (∀ p : PortInfo, p.port ∈ [80, 443] →
        portRecs p = ⟨[], [], [⟨str "Web Service on Port " ++ natStr p.port,
          str "Found " ++ p.service ++ str " running on port " ++ natStr p.port,
          RecContent.text (str "Ensure the web server is properly configured with secure headers and up-to-date.")⟩]⟩) ∧
    (∀ p : PortInfo, p.port ∈ [20, 21] →
        portRecs p = ⟨[], [⟨str "FTP Service on Port " ++ natStr p.port,
          str "Found " ++ p.service ++ str " running on port " ++ natStr p.port,
          RecContent.text (str "Consider replacing FTP with SFTP or FTPS for secure file transfers.")⟩], []⟩) ∧
    generateRecommendations ⟨none, some [⟨str "host", 22, str "ssh", str "unknown"⟩], none⟩
      = ⟨[], [⟨str "Remote Access Service on Port 22", str "Found ssh running on port 22",
          RecContent.text (str "Restrict access to port 22 to trusted IPs only and ensure strong authentication is in place.")⟩], []⟩ ∧
    generateRecommendations ⟨none, some [⟨str "host", 443, str "https", str "unknown"⟩], none⟩
      = ⟨[], [], [⟨str "Web Service on Port 443", str "Found https running on port 443",
          RecContent.text (str "Ensure the web server is properly configured with secure headers and up-to-date.")⟩]⟩ := by
  refine ⟨?_, ?_, ?_, by decide, by decide⟩
  · intro p hp
    unfold portRecs
    rw [if_pos hp]
  · intro p hp
    have hp2 : p.port = 80 ∨ p.port = 443 := by simpa using hp
    obtain ⟨host, port, service, version⟩ := p
    rcases hp2 with h | h <;> subst h <;> simp [portRecs]
  · intro p hp
    have hp2 : p.port = 20 ∨ p.port = 21 := by simpa using hp
    obtain ⟨host, port, service, version⟩ := p
    rcases hp2 with h | h <;> subst h <;> simp [portRecs]

/-- Witness for C6: one concrete record per port family. -/
theorem C6_port_bucket_rules_witness :
    portRecs ⟨str "h", 22, str "ssh", str "u"⟩
      = ⟨[], [⟨str "Remote Access Service on Port " ++ natStr 22,
          str "Found " ++ str "ssh" ++ str " running on port " ++ natStr 22,
          RecContent.text (str "Restrict access to port " ++ natStr 22 ++
            str " to trusted IPs only and ensure strong authentication is in place.")⟩], []⟩ ∧
    portRecs ⟨str "h", 443, str "https", str "u"⟩
      = ⟨[], [], [⟨str "Web Service on Port " ++ natStr 443,
          str "Found " ++ str "https" ++ str " running on port " ++ natStr 443,
          RecContent.text (str "Ensure the web server is properly configured with secure headers and up-to-date.")⟩]⟩ ∧
    portRecs ⟨str "h", 21, str "ftp", str "u"⟩
      = ⟨[], [⟨str "FTP Service on Port " ++ natStr 21,
          str "Found " ++ str "ftp" ++ str " running on port " ++ natStr 21,
          RecContent.text (str "Consider replacing FTP with SFTP or FTPS for secure file transfers.")⟩], []⟩ :=
  ⟨C6_port_bucket_rules.1 ⟨str "h", 22, str "ssh", str "u"⟩ (by decide),
   C6_port_bucket_rules.2.1 ⟨str "h", 443, str "https", str "u"⟩ (by decide),
   C6_port_bucket_rules.2.2.1 ⟨str "h", 21, str "ftp", str "u"⟩ (by decide)⟩

/-- C7: an interesting directory whose URL contains ".git" or ".env"
contributes exactly one high-priority Sensitive Information Exposure entry;
otherwise one whose URL contains "wp-admin" or "admin" contributes exactly
one medium-priority Admin Interface Exposed entry; end to end,
"/.git/config" yields the one high entry and "/wp-admin/" the one medium
entry. -/
theorem C7_directory_bucket_rules :
    (∀ d : DirEntry,
        (hasSub (str ".git") (d.url.getD []) || hasSub (str ".env") (d.url.getD [])) = true →
        dirRecs d = ⟨[⟨str "Sensitive Information Exposure",
          str "Found " ++ d.url.getD [] ++ str " which may expose sensitive information",
          RecContent.text (str "Remove or restrict access to " ++ d.url.getD [] ++ str " immediately.")⟩], [], []⟩) ∧
    (∀ d : DirEntry,
        (hasSub (str ".git") (d.url.getD []) || hasSub (str ".env") (d.url.getD [])) = false →
        (hasSub (str "wp-admin") (d.url.getD []) || hasSub (str "admin") (d.url.getD [])) = true →
        dirRecs d = ⟨[], [⟨str "Admin Interface Exposed",
          str "Found potential admin interface at " ++ d.url.getD [],
          RecContent.text (str "Restrict access to admin interfaces and use strong passwords and 2FA.")⟩], []⟩) ∧
    generateRecommendations ⟨none, none, some [⟨some (str "/.git/config"), none⟩]⟩
      = ⟨[⟨str "Sensitive Information Exposure",
          str "Found /.git/config which may expose sensitive information",
          RecContent.text (str "Remove or restrict access to /.git/config immediately.")⟩], [], []⟩ ∧
    generateRecommendations ⟨none, none, some [⟨some (str "/wp-admin/"), none⟩]⟩
      = ⟨[], [⟨str "Admin Interface Exposed",
          str "Found potential admin interface at /wp-admin/",
          RecContent.text (str "Restrict access to admin interfaces and use strong passwords and 2FA.")⟩], []⟩ := by
  refine ⟨?_, ?_, by decide, by decide⟩
  · intro d h
    unfold dirRecs
    rw [if_pos h]
  · intro d h1 h2
    unfold dirRecs
    rw [if_neg (by simp [h1]), if_pos h2]

/-- Witness for C7: one concrete directory per rule. -/
theorem C7_directory_bucket_rules_witness :
    dirRecs ⟨some (str "/.git/config"), none⟩
      = ⟨[⟨str "Sensitive Information Exposure",
          str "Found " ++ str "/.git/config" ++ str " which may expose sensitive information",
          RecContent.text (str "Remove or restrict access to " ++ str "/.git/config" ++ str " immediately.")⟩], [], []⟩ ∧
    dirRecs ⟨some (str "/wp-admin/"), none⟩
      = ⟨[], [⟨str "Admin Interface Exposed",
          str "Found potential admin interface at " ++ str "/wp-admin/",
          RecContent.text (str "Restrict access to admin interfaces and use strong passwords and 2FA.")⟩], []⟩ :=
  ⟨C7_directory_bucket_rules.1 ⟨some (str "/.git/config"), none⟩ (by decide),
   C7_directory_bucket_rules.2.1 ⟨some (str "/wp-admin/"), none⟩ (by decide) (by decide)⟩

/-- C8: unrecognized bundle shapes contribute no finding and abort nothing,
and recognized shapes apply the documented per-field defaults: a scanner
result with every field missing yields the default-filled finding, and a
bare manual check the empty-titled info finding; recommendations still come
from the (generic) catalog lookup. -/
theorem C8_shape_skip_and_field_defaults :
    (∀ bundles : List RawBundle,
        analyzeVulnerabilities (⟨none, none⟩ :: bundles) = analyzeVulnerabilities bundles) ∧
    analyzeVulnerabilities [⟨some [⟨none, none, none⟩], none⟩]
      = [⟨str "Unknown Vulnerability", str "info", [], some [], RemTemplate.generic⟩] ∧
    analyzeVulnerabilities [⟨none, some [⟨none, none⟩]⟩]
      = [⟨[], str "info", [], none, RemTemplate.generic⟩] := by
  refine ⟨?_, by decide, by decide⟩
  intro bundles
  simp [analyzeVulnerabilities, List.flatMap_cons]

/-- C9: the per-Finding recommendation builder defaults a missing severity
key to medium, so the timeframe comes out Short-term, unlike the info
default used elsewhere (which would give Medium-term). -/
theorem C9_missing_severity_defaults_to_medium :
    ∀ v : VulnInput, v.severity = none →
      (getRecommendationForVulnerability v).timeframe = str "Short-term (within 1-2 weeks)" ∧
      (getRecommendationForVulnerability { v with severity := some (str "info") }).timeframe
        = str "Medium-term (within 1 month)" := by
  intro v h
  constructor
  · simp only [getRecommendationForVulnerability, h, Option.getD_none]
    rfl
  · rfl

/-- Witness for C9 at a concrete severity-less input dict. -/
theorem C9_missing_severity_witness :
    (getRecommendationForVulnerability ⟨some (str "x"), none, none, none⟩).timeframe
        = str "Short-term (within 1-2 weeks)" ∧
    (getRecommendationForVulnerability ⟨some (str "x"), some (str "info"), none, none⟩).timeframe
        = str "Medium-term (within 1 month)" := by
  have h := C9_missing_severity_defaults_to_medium ⟨some (str "x"), none, none, none⟩ rfl
  exact ⟨h.1, h.2⟩

/-- C10: the interest classifier lowercases the directory URL while the
bucket rules test it raw; a URL containing ".GIT" upper-case and no
lower-case occurrence of ".git", ".env", "wp-admin" or "admin" is classified
interesting yet contributes no recommendation entry. -/
theorem C10_dir_case_sensitivity_mismatch :
    ∀ d : DirEntry,
      hasSub (str ".GIT") (d.url.getD []) = true →
      hasSub (str ".git") (d.url.getD []) = false →
      hasSub (str ".env") (d.url.getD []) = false →
      hasSub (str "wp-admin") (d.url.getD []) = false →
      hasSub (str "admin") (d.url.getD []) = false →
      dirInteresting d = true ∧ dirRecs d = ⟨[], [], []⟩ := by
  intro d hGIT hgit henv hwp hadmin
  constructor
  · have hmap := hasSub_map Char.toLower (str ".GIT") (d.url.getD []) hGIT
    have hlow : hasSub (str ".git") (lowerStr (d.url.getD [])) = true := by
      have e : (str ".GIT").map Char.toLower = str ".git" := by decide
      rw [e] at hmap
      exact hmap
    unfold dirInteresting
    rw [List.any_eq_true]
    exact ⟨str ".git", by decide, hlow⟩
  · unfold dirRecs
    rw [if_neg (by simp [hgit, henv]), if_neg (by simp [hwp, hadmin])]

/-- Witness for C10 at the concrete URL "/.GIT/config". -/
theorem C10_dir_case_sensitivity_witness :
    dirInteresting ⟨some (str "/.GIT/config"), none⟩ = true ∧
    dirRecs ⟨some (str "/.GIT/config"), none⟩ = ⟨[], [], []⟩ :=
  C10_dir_case_sensitivity_mismatch ⟨some (str "/.GIT/config"), none⟩
    (by decide) (by decide) (by decide) (by decide) (by decide)
